import Mathlib

/-!
Verification of the PothosAudio wrapper core.

The repository wraps the PortAudio library as dataflow source/sink blocks.
Its core logic is device-name resolution, stream-parameter setup, the
report-mode and backoff setters, the per-invocation sink/source work loops
with backoff on underflow/overflow, and a device enumeration query.

We model PortAudio as an explicit environment record (device table, default
device indices, host API names, version text) and translate each wrapper
function from the C++ source into a pure Lean function over that
environment.  PortAudio doubles (latencies, sample rates) are modelled as
rationals; clock time points and durations of
std chrono high_resolution_clock are modelled as integer tick counts
(nanoseconds); machine integers are modelled as Int (the values involved
are device indices and frame counts far from any overflow boundary).
-/

namespace PothosAudio

/-- The fields of the PortAudio PaDeviceInfo record that the wrapper reads.
hostApi is an index into the host API table of the environment. -/
structure PaDeviceInfo where
  name : String
  hostApi : Nat
  maxInputChannels : Int
  maxOutputChannels : Int
  defaultSampleRate : Rat
  defaultLowInputLatency : Rat
  defaultHighInputLatency : Rat
  defaultLowOutputLatency : Rat
  defaultHighOutputLatency : Rat
deriving DecidableEq

/-- The PortAudio environment visible to the wrapper: the device table
(Pa_GetDeviceCount is its length, Pa_GetDeviceInfo indexes it), the default
input and output device indices, the host API name table and the library
version text. -/
structure PaEnv where
  devices : List PaDeviceInfo
  defaultInputDevice : Int
  defaultOutputDevice : Int
  hostApis : List String
  versionText : String
deriving DecidableEq

/-- The Pothos exception kinds thrown by the wrapper, with their two string
arguments (context, message). -/
inductive PothosError where
  | rangeException (ctx msg : String)
  | notFoundException (ctx msg : String)
  | invalidArgumentException (ctx msg : String)
  | generalException (ctx msg : String)
deriving DecidableEq

/-- std stoi restricted to all-digit strings: the value of the digit string
(overflow of the machine int is ignored; device-index strings are small). -/
def stoiDigits (s : String) : Int :=
  ((s.data.foldl (fun a c => 10 * a + (c.toNat - 48)) 0 : Nat) : Int)

/-- AudioBlock::setupDevice from AudioBlock.cpp: empty name picks the default
device of the block direction, an all-digit name is an index checked against
the device count, otherwise a linear scan for an exact name match. -/
def setupDevice (env : PaEnv) (isSink : Bool) (deviceName : String) :
    Except PothosError Int :=
  if deviceName = ("") then
    .ok (if isSink then env.defaultOutputDevice else env.defaultInputDevice)
  else if deviceName.data.all Char.isDigit then
    let device := stoiDigits deviceName
    if device ≥ (env.devices.length : Int) then
      .error (.rangeException (("AudioBlock::setupDevice(") ++ deviceName ++ (")"))
        ("Device index out of range"))
    else .ok device
  else
    match env.devices.findIdx? (fun d => d.name == deviceName) with
    | some i => .ok (i : Int)
    | none => .error (.notFoundException
        (("AudioBlock::setupDevice(") ++ deviceName ++ (")")) ("No matching device"))

/-- getDeviceMatch from the standalone variants (AudioSource.cpp and the
unnamed standalone AudioSink): same algorithm as setupDevice but the default
index for the empty name is a parameter supplied by the caller. -/
def getDeviceMatch (env : PaEnv) (blockName deviceName : String)
    (defaultIndex : Int) : Except PothosError Int :=
  if deviceName = ("") then .ok defaultIndex
  else if deviceName.data.all Char.isDigit then
    let index := stoiDigits deviceName
    if index ≥ (env.devices.length : Int) then
      .error (.rangeException (blockName ++ ("(") ++ deviceName ++ (")"))
        ("Device index out of range"))
    else .ok index
  else
    match env.devices.findIdx? (fun d => d.name == deviceName) with
    | some i => .ok (i : Int)
    | none => .error (.notFoundException
        (blockName ++ ("(") ++ deviceName ++ (")")) ("No matching device"))

/-- Device resolution of the legacy common-block AudioBlock::setupStream
(unnamed part_000, lines 79-85): it calls getDeviceMatch with
Pa_GetDefaultOutputDevice() as the default index for BOTH directions; the
isSink flag of the block is not consulted here. -/
def setupStreamLegacyDevice (env : PaEnv) (_isSink : Bool)
    (deviceName : String) : Except PothosError Int :=
  getDeviceMatch env ("AudioBlock") deviceName env.defaultOutputDevice

/-- A sample device table entry used to evaluate the model at concrete
inputs: distinct input and output latency defaults. -/
def sampleDevice (nm : String) : PaDeviceInfo :=
  ⟨nm, 0, 2, 2, 48000, 1, 3, 5, 7⟩

/-- A sample environment: two devices, default input device 0, default
output device 1. -/
def sampleEnv : PaEnv :=
  ⟨[sampleDevice ("alpha"), sampleDevice ("beta")], 0, 1, [("ALSA")],
    ("PortAudio V19")⟩

/-- C2 counterexample: in the legacy common-block setupStream a SOURCE block
(isSink = false) with an empty device name resolves to the default OUTPUT
device, which differs from the default input device in this environment, so
resolution does not return the direction-appropriate default. -/
theorem legacy_empty_device_counterexample :
    setupStreamLegacyDevice sampleEnv false ("") = .ok sampleEnv.defaultOutputDevice
      ∧ sampleEnv.defaultOutputDevice ≠ sampleEnv.defaultInputDevice :=
  ⟨rfl, by decide⟩

/-- C2 amended: the current resolver AudioBlock::setupDevice maps an empty
name to the direction-appropriate default (input for a source, output for a
sink), and the standalone variants pass the matching default to
getDeviceMatch; the legacy common-block setupStream variant instead always
uses the default output device, for sources as well. -/
theorem empty_device_default_resolution_amended (env : PaEnv) (isSink : Bool) :
    setupDevice env isSink ("") =
        .ok (if isSink then env.defaultOutputDevice else env.defaultInputDevice)
      ∧ getDeviceMatch env ("AudioSource") ("") env.defaultInputDevice =
        .ok env.defaultInputDevice
      ∧ getDeviceMatch env ("AudioSink") ("") env.defaultOutputDevice =
        .ok env.defaultOutputDevice
      ∧ setupStreamLegacyDevice env isSink ("") = .ok env.defaultOutputDevice := by
  refine ⟨?_, ?_, ?_, ?_⟩ <;>
    simp [setupDevice, getDeviceMatch, setupStreamLegacyDevice]

/-- Suggested latency computed by the current AudioBlock::setupStream
(AudioBlock.cpp, lines 128-129): the mean of the low/high defaults of the
direction of the block. -/
def setupStreamSuggestedLatency (dev : PaDeviceInfo) (isSink : Bool) : Rat :=
  if isSink then (dev.defaultLowOutputLatency + dev.defaultHighOutputLatency) / 2
  else (dev.defaultLowInputLatency + dev.defaultHighInputLatency) / 2

/-- Suggested latency computed by the legacy common-block setupStream
(unnamed part_000, line 89): always the OUTPUT low/high mean, for both
directions. -/
def legacySetupStreamSuggestedLatency (dev : PaDeviceInfo) : Rat :=
  (dev.defaultLowOutputLatency + dev.defaultHighOutputLatency) / 2

/-- Suggested latency computed by the standalone AudioSource constructor
(AudioSource.cpp, line 125): the input low/high mean. -/
def audioSourceSuggestedLatency (dev : PaDeviceInfo) : Rat :=
  (dev.defaultLowInputLatency + dev.defaultHighInputLatency) / 2

/-- C4 counterexample: for a source block the legacy common-block setupStream
suggests the output-latency mean, not the input-latency mean of the device,
on a device whose two means differ. -/
theorem legacy_latency_counterexample :
    legacySetupStreamSuggestedLatency (sampleDevice ("alpha")) ≠
      ((sampleDevice ("alpha")).defaultLowInputLatency +
        (sampleDevice ("alpha")).defaultHighInputLatency) / 2 := by
  norm_num [legacySetupStreamSuggestedLatency, sampleDevice]

/-- C4 amended: the current setupStream and the standalone source constructor
use the mean of the low/high latency defaults of the stream direction (input
for a source, output for a sink); the legacy common-block setupStream variant
uses the output mean for both directions. -/
theorem suggested_latency_amended (dev : PaDeviceInfo) :
    setupStreamSuggestedLatency dev true =
        (dev.defaultLowOutputLatency + dev.defaultHighOutputLatency) / 2
      ∧ setupStreamSuggestedLatency dev false =
        (dev.defaultLowInputLatency + dev.defaultHighInputLatency) / 2
      ∧ audioSourceSuggestedLatency dev =
        (dev.defaultLowInputLatency + dev.defaultHighInputLatency) / 2
      ∧ legacySetupStreamSuggestedLatency dev =
        (dev.defaultLowOutputLatency + dev.defaultHighOutputLatency) / 2 := by
  refine ⟨?_, ?_, ?_, ?_⟩ <;>
    simp [setupStreamSuggestedLatency, audioSourceSuggestedLatency,
      legacySetupStreamSuggestedLatency]

/-- C5: an all-digit non-empty device name parses to its numeric value N;
resolution throws the range exception when N is at least the device count
and selects index N when N is below the device count, in both the current
setupDevice and the standalone getDeviceMatch. -/
theorem numeric_device_name_resolution (env : PaEnv) (isSink : Bool)
    (blockName s : String) (defaultIndex : Int)
    (hne : s ≠ ("")) (hdig : s.data.all Char.isDigit = true) :
    (stoiDigits s ≥ (env.devices.length : Int) →
      setupDevice env isSink s =
        .error (.rangeException (("AudioBlock::setupDevice(") ++ s ++ (")"))
          ("Device index out of range"))
      ∧ getDeviceMatch env blockName s defaultIndex =
        .error (.rangeException (blockName ++ ("(") ++ s ++ (")"))
          ("Device index out of range")))
    ∧ (stoiDigits s < (env.devices.length : Int) →
      setupDevice env isSink s = .ok (stoiDigits s)
      ∧ getDeviceMatch env blockName s defaultIndex = .ok (stoiDigits s)) := by
  constructor
  · intro hge
    constructor <;>
      · simp only [setupDevice, getDeviceMatch, if_neg hne, hdig]
        simp [hge]
  · intro hlt
    constructor <;>
      · simp only [setupDevice, getDeviceMatch, if_neg hne, hdig]
        simp [not_le.mpr hlt]

/-- C5 witness: in the two-device sample environment the name "7" fails with
the range exception and the name "1" selects device index 1. -/
theorem numeric_device_name_resolution_witness :
    setupDevice sampleEnv true ("7") =
        .error (.rangeException (("AudioBlock::setupDevice(") ++ ("7") ++ (")"))
          ("Device index out of range"))
      ∧ setupDevice sampleEnv false ("1") = .ok 1 := by
  have h7 := numeric_device_name_resolution sampleEnv true ("AudioSink") ("7") 1
    (by decide) (by decide)
  have h1 := numeric_device_name_resolution sampleEnv false ("AudioSink") ("1") 1
    (by decide) (by decide)
  refine ⟨(h7.1 (by decide)).1, ?_⟩
  have := (h1.2 (by decide)).1
  simpa using this

/-- The five PortAudio base sample formats the wrapper maps element types
onto. -/
inductive PaBaseFormat where
  | paFloat32
  | paInt32
  | paInt16
  | paInt8
  | paUInt8
deriving DecidableEq

/-- A PaSampleFormat value as the wrapper builds it: a base format possibly
combined with the paNonInterleaved flag. -/
structure PaSampleFormat where
  base : PaBaseFormat
  nonInterleaved : Bool
deriving DecidableEq

/-- Pa_GetSampleSize of the library: bytes per sample of the base format
(the paNonInterleaved flag is masked out by the library). -/
def paGetSampleSize (fmt : PaSampleFormat) : Int :=
  match fmt.base with
  | .paFloat32 => 4
  | .paInt32 => 4
  | .paInt16 => 2
  | .paInt8 => 1
  | .paUInt8 => 1

/-- The five element type names accepted by the block factories. -/
inductive DTypeName where
  | float32
  | int32
  | int16
  | int8
  | uint8
deriving DecidableEq

/-- Byte width of each element type (Pothos DType size). -/
def dtypeSize : DTypeName → Int
  | .float32 => 4
  | .int32 => 4
  | .int16 => 2
  | .int8 => 1
  | .uint8 => 1

/-- The format chain of the constructors: each recognized element type sets
the matching PortAudio format. -/
def formatOfDType : DTypeName → PaBaseFormat
  | .float32 => .paFloat32
  | .int32 => .paInt32
  | .int16 => .paInt16
  | .int8 => .paInt8
  | .uint8 => .paUInt8

/-- The sample format the constructor stores in the stream parameters:
base format from the element type, non-interleaved flag set when the channel
mode is not INTERLEAVED. -/
def buildSampleFormat (d : DTypeName) (interleaved : Bool) : PaSampleFormat :=
  ⟨formatOfDType d, !interleaved⟩

/-- The post-open size check of AudioBlock::setupStream (AudioBlock.cpp,
lines 131 and 154-157): requestedSize is Pa_GetSampleSize of the requested
format taken before the open; after the open the check reads the sample
format field again (negotiated: its value after the backend may have
substituted a format) and throws on a size mismatch. -/
def setupStreamSizeCheck (requested negotiated : PaSampleFormat) :
    Except PothosError Unit :=
  let requestedSize := paGetSampleSize requested
  if paGetSampleSize negotiated ≠ requestedSize then
    .error (.generalException ("AudioBlock::setupStream()")
      ("Pa_GetSampleSize mismatch"))
  else .ok ()

/-- The post-open size check of the standalone constructors (AudioSource.cpp
line 149, standalone AudioSink line 143): compares Pa_GetSampleSize of the
post-open format field against the element type byte width directly. -/
def constructorSizeCheck (blockName : String) (d : DTypeName)
    (negotiated : PaSampleFormat) : Except PothosError Unit :=
  if paGetSampleSize negotiated ≠ dtypeSize d then
    .error (.generalException (blockName ++ ("()")) ("Pa_GetSampleSize mismatch"))
  else .ok ()

/-- C3: for every requested element type (in either channel mode) and every
post-open format value, the size check of the common setupStream and the size
check of the standalone constructors succeed exactly when the negotiated
sample size equals the byte width of the requested element type; hence any
silent substitution of a format with a different sample size makes block
creation abort with the mismatch exception. -/
theorem negotiated_sample_size_check (d : DTypeName) (interleaved : Bool)
    (negotiated : PaSampleFormat) :
    (setupStreamSizeCheck (buildSampleFormat d interleaved) negotiated = .ok ()
        ↔ paGetSampleSize negotiated = dtypeSize d)
      ∧ (constructorSizeCheck ("AudioSink") d negotiated = .ok ()
        ↔ paGetSampleSize negotiated = dtypeSize d)
      ∧ (paGetSampleSize negotiated ≠ dtypeSize d →
        setupStreamSizeCheck (buildSampleFormat d interleaved) negotiated =
          .error (.generalException ("AudioBlock::setupStream()")
            ("Pa_GetSampleSize mismatch"))) := by
  obtain ⟨nb, ni⟩ := negotiated
  cases d <;> cases nb <;>
    simp [setupStreamSizeCheck, constructorSizeCheck, buildSampleFormat,
      formatOfDType, paGetSampleSize, dtypeSize]

/-- C3 witness: requesting int16 while the backend substitutes a float32
format (different sample size) makes the common setupStream check fail. -/
theorem negotiated_sample_size_check_witness :
    setupStreamSizeCheck (buildSampleFormat DTypeName.int16 true)
        ⟨PaBaseFormat.paFloat32, false⟩ =
      .error (.generalException ("AudioBlock::setupStream()")
        ("Pa_GetSampleSize mismatch")) :=
  (negotiated_sample_size_check DTypeName.int16 true
    ⟨PaBaseFormat.paFloat32, false⟩).2.2 (by decide)

/-- The mutable block fields that the setters, activate and the work loops
touch.  readyTime and backoffTime model the high_resolution_clock time point
and duration in integer ticks (nanoseconds); the two report flags mirror
_reportLogger / _reportStderror (and the per-variant underflow/overflow
flags, which have identical roles); sendLabel mirrors _sendLabel. -/
structure BlockState where
  readyTime : Int
  backoffTime : Int
  reportLogger : Bool
  reportStderror : Bool
  sendLabel : Bool
deriving DecidableEq

/-- duration_cast of std chrono milliseconds(backoff) to
high_resolution_clock ticks: one millisecond is 1000000 nanosecond ticks. -/
def msToClockTicks (backoff : Int) : Int :=
  backoff * 1000000

/-- AudioBlock::setBackoffTime: stores the converted duration with no range
validation; defined for every long value, negative values included. -/
def setBackoffTime (st : BlockState) (backoff : Int) : BlockState :=
  { st with backoffTime := msToClockTicks backoff }

/-- AudioSink::setUnderflowBackoff of the standalone sink: same body as
setBackoffTime. -/
def setUnderflowBackoff (st : BlockState) (backoff : Int) : BlockState :=
  { st with backoffTime := msToClockTicks backoff }

/-- AudioSource::setOverflowBackoff of the standalone source: same body as
setBackoffTime. -/
def setOverflowBackoff (st : BlockState) (backoff : Int) : BlockState :=
  { st with backoffTime := msToClockTicks backoff }

/-- AudioBlock::setReportMode: validates the mode string against the three
accepted values before touching any flag, then sets the logger flag iff the
mode is LOGGER and the stderr flag iff the mode is STDERROR.  The returned
pair is the resulting block state and the thrown exception, if any. -/
def setReportMode (st : BlockState) (mode : String) :
    BlockState × Option PothosError :=
  if mode = ("LOGGER") ∨ mode = ("STDERROR") ∨ mode = ("DISABLED") then
    ({ st with reportLogger := mode == ("LOGGER"),
               reportStderror := mode == ("STDERROR") }, none)
  else
    (st, some (.invalidArgumentException
      (("AudioBlock::setReportMode(") ++ mode ++ (")")) ("unknown report mode")))

/-- AudioSink::setReportUnderflow of the standalone sink: same structure as
setReportMode with its own exception strings. -/
def setReportUnderflow (st : BlockState) (mode : String) :
    BlockState × Option PothosError :=
  if mode = ("LOGGER") ∨ mode = ("STDERROR") ∨ mode = ("DISABLED") then
    ({ st with reportLogger := mode == ("LOGGER"),
               reportStderror := mode == ("STDERROR") }, none)
  else
    (st, some (.invalidArgumentException
      (("AudioSink::setReportUnderflow(") ++ mode ++ (")"))
      ("unknown underflow report mode")))

/-- AudioSource::setReportOverflow of the standalone source: same structure
as setReportMode with its own exception strings. -/
def setReportOverflow (st : BlockState) (mode : String) :
    BlockState × Option PothosError :=
  if mode = ("LOGGER") ∨ mode = ("STDERROR") ∨ mode = ("DISABLED") then
    ({ st with reportLogger := mode == ("LOGGER"),
               reportStderror := mode == ("STDERROR") }, none)
  else
    (st, some (.invalidArgumentException
      (("AudioSource::setReportOverflow(") ++ mode ++ (")"))
      ("unknown overflow report mode")))

/-- activate: resets the ready time to the current clock value, starts the
stream (the stream call is external and modelled as succeeding) and arms the
one-shot rate label flag. -/
def activate (st : BlockState) (now : Int) : BlockState :=
  { st with readyTime := now, sendLabel := true }

/-- deactivate: stops the stream; no modelled block field changes. -/
def deactivate (st : BlockState) : BlockState :=
  st

/-- Result kind of Pa_WriteStream as the sink inspects it. -/
inductive PaWriteError where
  | paNoError
  | paOutputUnderflowed
  | otherError (code : Int)
deriving DecidableEq

/-- Result kind of Pa_ReadStream as the source inspects it. -/
inductive PaReadError where
  | paNoError
  | paInputOverflowed
  | otherError (code : Int)
deriving DecidableEq

/-- The per-invocation inputs of the sink work loop: the workInfo minimum
available input elements, the Pa_GetStreamWriteAvailable result (negative
values are library errors), the MIN_FRAMES_BLOCKING constant (defined in a
header outside src; the clamp below is independent of its value), the
Pa_WriteStream outcome and the clock value read at the backoff test. -/
structure SinkWorkEnv where
  minInElements : Int
  writeAvailable : Int
  minFramesBlocking : Int
  writeErr : PaWriteError
  now : Int
deriving DecidableEq

/-- How one sink work invocation ends. -/
inductive SinkAction where
  | returned
  | threw (ctx msg : String)
  | yielded
  | consumed (numFrames : Int)
deriving DecidableEq

/-- Observable outcome of one sink work invocation: the new block state, the
ending action, the frame count passed to Pa_WriteStream (none when the write
was not reached), the text written to stderr and whether the logger was
used. -/
structure SinkWorkOut where
  state : BlockState
  action : SinkAction
  framesWritten : Option Int
  stderrText : String
  logged : Bool
deriving DecidableEq

/-- AudioSink::work (AudioSink.cpp lines 99-138; the standalone sink has the
identical body): early return on no input; throw on a negative write
availability; substitute MIN_FRAMES_BLOCKING for a zero availability; clamp
to the minimum input element count; write; on underflow advance the ready
time by the backoff and report per the flags; yield without consuming while
the ready time has not been passed; otherwise consume the written frame
count from every input port. -/
def sinkWork (st : BlockState) (env : SinkWorkEnv) : SinkWorkOut :=
  if env.minInElements = 0 then
    ⟨st, .returned, none, (""), false⟩
  else if env.writeAvailable < 0 then
    ⟨st, .threw ("AudioSink::work()") ("Pa_GetStreamWriteAvailable"),
      none, (""), false⟩
  else
    let numFrames0 := if env.writeAvailable = 0 then env.minFramesBlocking
      else env.writeAvailable
    let numFrames := min numFrames0 env.minInElements
    let st1 := if env.writeErr = .paOutputUnderflowed then
        { st with readyTime := st.readyTime + st.backoffTime }
      else st
    let stderrText := if env.writeErr = .paOutputUnderflowed
        ∧ st.reportStderror = true then ("aU") else ("")
    let logged := match env.writeErr with
      | .paNoError => false
      | .paOutputUnderflowed => st.reportLogger
      | .otherError _ => true
    if env.now ≤ st1.readyTime then
      ⟨st1, .yielded, some numFrames, stderrText, logged⟩
    else
      ⟨st1, .consumed numFrames, some numFrames, stderrText, logged⟩

/-- The per-invocation inputs of the source work loop: the workInfo minimum
available output elements, the Pa_GetStreamReadAvailable result, the
Pa_ReadStream outcome, the workInfo timeout (used by the do-nothing sleep)
and the clock value read at the backoff test. -/
structure SourceWorkEnv where
  minOutElements : Int
  readAvailable : Int
  readErr : PaReadError
  maxTimeoutNs : Int
  now : Int
deriving DecidableEq

/-- How one source work invocation ends. -/
inductive SourceAction where
  | returned
  | threw (ctx msg : String)
  | sleptYielded
  | yielded
  | produced (numFrames : Int)
deriving DecidableEq

/-- Observable outcome of one source work invocation; labelsPosted is true
when the rxRate label was posted to every output port during the call. -/
structure SourceWorkOut where
  state : BlockState
  action : SourceAction
  framesRead : Option Int
  labelsPosted : Bool
  stderrText : String
  logged : Bool
deriving DecidableEq

/-- AudioSource::work of the standalone source (AudioSource.cpp lines
215-268): early return on no output space; throw on a negative read
availability; clamp to the minimum output element count; on a zero clamp
sleep for the bounded timeout and yield; read; on overflow advance the ready
time by the backoff and report per the flags; post the one-shot rxRate label
when armed; yield without producing while the ready time has not been
passed; otherwise produce the read frame count on every output port.  (The
common-block variant in unnamed part_002 differs only before the read: a
zero availability is replaced by MIN_FRAMES_BLOCKING instead of sleeping;
its post-read handling, lines 123-150, is the code modelled here.) -/
def sourceWork (st : BlockState) (env : SourceWorkEnv) : SourceWorkOut :=
  if env.minOutElements = 0 then
    ⟨st, .returned, none, false, (""), false⟩
  else if env.readAvailable < 0 then
    ⟨st, .threw ("AudioSource.work()") ("Pa_GetStreamReadAvailable"),
      none, false, (""), false⟩
  else
    let numFrames := min env.readAvailable env.minOutElements
    if numFrames = 0 then
      ⟨st, .sleptYielded, none, false, (""), false⟩
    else
      let st1 := if env.readErr = .paInputOverflowed then
          { st with readyTime := st.readyTime + st.backoffTime }
        else st
      let stderrText := if env.readErr = .paInputOverflowed
          ∧ st.reportStderror = true then ("aO") else ("")
      let logged := match env.readErr with
        | .paNoError => false
        | .paInputOverflowed => st.reportLogger
        | .otherError _ => true
      let labelsPosted := st1.sendLabel
      let st2 := { st1 with sendLabel := false }
      if env.now ≤ st2.readyTime then
        ⟨st2, .yielded, some numFrames, labelsPosted, stderrText, logged⟩
      else
        ⟨st2, .produced numFrames, some numFrames, labelsPosted, stderrText, logged⟩

/-- The frame count a sink invocation passes to the native write once the
write is reached: the write availability (MIN_FRAMES_BLOCKING substituted
for zero) clamped to the minimum available input elements. -/
def sinkNumFrames (env : SinkWorkEnv) : Int :=
  min (if env.writeAvailable = 0 then env.minFramesBlocking
    else env.writeAvailable) env.minInElements

/-- The block state after the error-handling part of a sink invocation that
reached the write: the ready time advances by the backoff exactly on an
underflow. -/
def sinkPostState (st : BlockState) (env : SinkWorkEnv) : BlockState :=
  if env.writeErr = PaWriteError.paOutputUnderflowed then
    { st with readyTime := st.readyTime + st.backoffTime }
  else st

/-- The stderr output of a sink invocation that reached the write. -/
def sinkStderrOut (st : BlockState) (env : SinkWorkEnv) : String :=
  if env.writeErr = PaWriteError.paOutputUnderflowed
    ∧ st.reportStderror = true then ("aU") else ("")

/-- Whether a sink invocation that reached the write logs the error. -/
def sinkLogged (st : BlockState) (env : SinkWorkEnv) : Bool :=
  match env.writeErr with
  | .paNoError => false
  | .paOutputUnderflowed => st.reportLogger
  | .otherError _ => true

/-- Characterization of a sink work invocation that reaches the native
write: the outcome is a yield or a consume decided by comparing the clock
with the post-update ready time. -/
theorem sinkWork_main (st : BlockState) (env : SinkWorkEnv)
    (h1 : ¬ env.minInElements = 0) (h2 : ¬ env.writeAvailable < 0) :
    sinkWork st env =
      if env.now ≤ (sinkPostState st env).readyTime then
        ⟨sinkPostState st env, SinkAction.yielded, some (sinkNumFrames env),
          sinkStderrOut st env, sinkLogged st env⟩
      else
        ⟨sinkPostState st env, SinkAction.consumed (sinkNumFrames env),
          some (sinkNumFrames env), sinkStderrOut st env, sinkLogged st env⟩ := by
  simp only [sinkWork, if_neg h1, if_neg h2]
  rfl

/-- The state of a reached-write sink invocation is the post-update state in
both outcome branches. -/
theorem sinkWork_state (st : BlockState) (env : SinkWorkEnv)
    (h1 : ¬ env.minInElements = 0) (h2 : ¬ env.writeAvailable < 0) :
    (sinkWork st env).state = sinkPostState st env := by
  rw [sinkWork_main st env h1 h2]
  split <;> rfl

/-- The frame count of a reached-write sink invocation in both outcome
branches. -/
theorem sinkWork_framesWritten (st : BlockState) (env : SinkWorkEnv)
    (h1 : ¬ env.minInElements = 0) (h2 : ¬ env.writeAvailable < 0) :
    (sinkWork st env).framesWritten = some (sinkNumFrames env) := by
  rw [sinkWork_main st env h1 h2]
  split <;> rfl

/-- A reached-write sink invocation still inside the backoff window yields. -/
theorem sinkWork_yield_of_le (st : BlockState) (env : SinkWorkEnv)
    (h1 : ¬ env.minInElements = 0) (h2 : ¬ env.writeAvailable < 0)
    (hle : env.now ≤ (sinkPostState st env).readyTime) :
    (sinkWork st env).action = SinkAction.yielded := by
  rw [sinkWork_main st env h1 h2, if_pos hle]

/-- A reached-write sink invocation past the backoff window consumes the
written frame count. -/
theorem sinkWork_consume_of_lt (st : BlockState) (env : SinkWorkEnv)
    (h1 : ¬ env.minInElements = 0) (h2 : ¬ env.writeAvailable < 0)
    (hlt : (sinkPostState st env).readyTime < env.now) :
    (sinkWork st env).action = SinkAction.consumed (sinkNumFrames env) := by
  rw [sinkWork_main st env h1 h2, if_neg (not_le.mpr hlt)]

/-- The frame count a source invocation passes to the native read once the
read is reached. -/
def sourceNumFrames (env : SourceWorkEnv) : Int :=
  min env.readAvailable env.minOutElements

/-- The block state after the error-handling part of a source invocation
that reached the read, before the label flag is cleared. -/
def sourcePreLabelState (st : BlockState) (env : SourceWorkEnv) : BlockState :=
  if env.readErr = PaReadError.paInputOverflowed then
    { st with readyTime := st.readyTime + st.backoffTime }
  else st

/-- The block state at the end of a source invocation that reached the read:
the label flag is always cleared there. -/
def sourcePostState (st : BlockState) (env : SourceWorkEnv) : BlockState :=
  { sourcePreLabelState st env with sendLabel := false }

/-- The stderr output of a source invocation that reached the read. -/
def sourceStderrOut (st : BlockState) (env : SourceWorkEnv) : String :=
  if env.readErr = PaReadError.paInputOverflowed
    ∧ st.reportStderror = true then ("aO") else ("")

/-- Whether a source invocation that reached the read logs the error. -/
def sourceLogged (st : BlockState) (env : SourceWorkEnv) : Bool :=
  match env.readErr with
  | .paNoError => false
  | .paInputOverflowed => st.reportLogger
  | .otherError _ => true

/-- Characterization of a source work invocation that reaches the native
read. -/
theorem sourceWork_main (st : BlockState) (env : SourceWorkEnv)
    (h1 : ¬ env.minOutElements = 0) (h2 : ¬ env.readAvailable < 0)
    (h3 : ¬ min env.readAvailable env.minOutElements = 0) :
    sourceWork st env =
      if env.now ≤ (sourcePostState st env).readyTime then
        ⟨sourcePostState st env, SourceAction.yielded,
          some (sourceNumFrames env), (sourcePreLabelState st env).sendLabel,
          sourceStderrOut st env, sourceLogged st env⟩
      else
        ⟨sourcePostState st env, SourceAction.produced (sourceNumFrames env),
          some (sourceNumFrames env), (sourcePreLabelState st env).sendLabel,
          sourceStderrOut st env, sourceLogged st env⟩ := by
  simp only [sourceWork, if_neg h1, if_neg h2, if_neg h3]
  rfl

/-- The ready-time update of the source does not touch the label flag. -/
theorem sourcePreLabelState_sendLabel (st : BlockState) (env : SourceWorkEnv) :
    (sourcePreLabelState st env).sendLabel = st.sendLabel := by
  unfold sourcePreLabelState
  split <;> rfl

/-- The state of a reached-read source invocation in both outcome
branches. -/
theorem sourceWork_state (st : BlockState) (env : SourceWorkEnv)
    (h1 : ¬ env.minOutElements = 0) (h2 : ¬ env.readAvailable < 0)
    (h3 : ¬ min env.readAvailable env.minOutElements = 0) :
    (sourceWork st env).state = sourcePostState st env := by
  rw [sourceWork_main st env h1 h2 h3]
  split <;> rfl

/-- The label posting flag of a reached-read source invocation in both
outcome branches. -/
theorem sourceWork_labelsPosted (st : BlockState) (env : SourceWorkEnv)
    (h1 : ¬ env.minOutElements = 0) (h2 : ¬ env.readAvailable < 0)
    (h3 : ¬ min env.readAvailable env.minOutElements = 0) :
    (sourceWork st env).labelsPosted = st.sendLabel := by
  rw [sourceWork_main st env h1 h2 h3]
  split <;> exact sourcePreLabelState_sendLabel st env

/-- A reached-read source invocation still inside the backoff window
yields. -/
theorem sourceWork_yield_of_le (st : BlockState) (env : SourceWorkEnv)
    (h1 : ¬ env.minOutElements = 0) (h2 : ¬ env.readAvailable < 0)
    (h3 : ¬ min env.readAvailable env.minOutElements = 0)
    (hle : env.now ≤ (sourcePostState st env).readyTime) :
    (sourceWork st env).action = SourceAction.yielded := by
  rw [sourceWork_main st env h1 h2 h3, if_pos hle]

/-- A source invocation that does not reach the read leaves the block state
unchanged and posts no label. -/
theorem sourceWork_early (st : BlockState) (env : SourceWorkEnv)
    (h : env.minOutElements = 0 ∨ env.readAvailable < 0
      ∨ min env.readAvailable env.minOutElements = 0) :
    (sourceWork st env).state = st ∧ (sourceWork st env).labelsPosted = false := by
  rcases h with h | h | h
  · simp only [sourceWork, if_pos h]
    exact ⟨trivial, trivial⟩
  · by_cases h0 : env.minOutElements = 0
    · simp only [sourceWork, if_pos h0]
      exact ⟨trivial, trivial⟩
    · simp only [sourceWork, if_neg h0, if_pos h]
      exact ⟨trivial, trivial⟩
  · by_cases h0 : env.minOutElements = 0
    · simp only [sourceWork, if_pos h0]
      exact ⟨trivial, trivial⟩
    · by_cases hn : env.readAvailable < 0
      · simp only [sourceWork, if_neg h0, if_pos hn]
        exact ⟨trivial, trivial⟩
      · simp only [sourceWork, if_neg h0, if_neg hn, if_pos h]
        exact ⟨trivial, trivial⟩
/-- C1: in a sink work invocation that reaches the native write (input
available, non-negative write availability) an underflow result advances the
ready time by exactly the stored backoff duration, and whenever the clock
has not yet passed the resulting ready time the invocation ends in a yield,
consuming no input port; symmetrically for the source with read overflow,
yield and produce. -/
theorem sink_source_backoff_behavior (st1 st2 : BlockState)
    (e1 : SinkWorkEnv) (e2 : SourceWorkEnv)
    (hIn : 1 ≤ e1.minInElements) (hAv : 0 ≤ e1.writeAvailable)
    (hOut : 1 ≤ e2.minOutElements) (hRd : 1 ≤ e2.readAvailable) :
    ((e1.writeErr = PaWriteError.paOutputUnderflowed →
        (sinkWork st1 e1).state.readyTime = st1.readyTime + st1.backoffTime)
      ∧ (e1.now ≤ (sinkWork st1 e1).state.readyTime →
        (sinkWork st1 e1).action = SinkAction.yielded))
    ∧ ((e2.readErr = PaReadError.paInputOverflowed →
        (sourceWork st2 e2).state.readyTime = st2.readyTime + st2.backoffTime)
      ∧ (e2.now ≤ (sourceWork st2 e2).state.readyTime →
        (sourceWork st2 e2).action = SourceAction.yielded)) := by
  have h1 : ¬ e1.minInElements = 0 := by omega
  have h2 : ¬ e1.writeAvailable < 0 := by omega
  have h3 : ¬ e2.minOutElements = 0 := by omega
  have h4 : ¬ e2.readAvailable < 0 := by omega
  have hmin : 1 ≤ min e2.readAvailable e2.minOutElements := le_min hRd hOut
  have h5 : ¬ min e2.readAvailable e2.minOutElements = 0 := by omega
  refine ⟨⟨?_, ?_⟩, ⟨?_, ?_⟩⟩
  · intro hu
    rw [sinkWork_state st1 e1 h1 h2]
    simp [sinkPostState, hu]
  · intro hle
    rw [sinkWork_state st1 e1 h1 h2] at hle
    exact sinkWork_yield_of_le st1 e1 h1 h2 hle
  · intro hov
    rw [sourceWork_state st2 e2 h3 h4 h5]
    simp [sourcePostState, sourcePreLabelState, hov]
  · intro hle
    rw [sourceWork_state st2 e2 h3 h4 h5] at hle
    exact sourceWork_yield_of_le st2 e2 h3 h4 h5 hle

/-- C1 witness: a concrete sink underflow and a concrete source overflow,
each still within the backoff window, advance the ready times by the stored
backoffs and end in yields. -/
theorem sink_source_backoff_behavior_witness :
    (sinkWork ⟨100, 7, false, true, false⟩
        ⟨3, 2, 1024, PaWriteError.paOutputUnderflowed, 105⟩).state.readyTime
      = 100 + 7
    ∧ (sinkWork ⟨100, 7, false, true, false⟩
        ⟨3, 2, 1024, PaWriteError.paOutputUnderflowed, 105⟩).action
      = SinkAction.yielded
    ∧ (sourceWork ⟨200, 5, false, true, true⟩
        ⟨4, 6, PaReadError.paInputOverflowed, 0, 203⟩).state.readyTime
      = 200 + 5
    ∧ (sourceWork ⟨200, 5, false, true, true⟩
        ⟨4, 6, PaReadError.paInputOverflowed, 0, 203⟩).action
      = SourceAction.yielded := by
  have h := sink_source_backoff_behavior ⟨100, 7, false, true, false⟩
    ⟨200, 5, false, true, true⟩
    ⟨3, 2, 1024, PaWriteError.paOutputUnderflowed, 105⟩
    ⟨4, 6, PaReadError.paInputOverflowed, 0, 203⟩
    (by decide) (by decide) (by decide) (by decide)
  exact ⟨h.1.1 rfl, h.1.2 (by decide), h.2.1 rfl, h.2.2 (by decide)⟩

/-- C7: in a sink work invocation with input available on every port and a
non-negative write availability, the frame count passed to the native write
is min(W, minInElements), where W is the write availability when positive
and MIN_FRAMES_BLOCKING when the availability is zero; and when the clock
has passed the post-invocation ready time, exactly that count is consumed
from every input port. -/
theorem sink_frame_count_and_consume (st : BlockState) (env : SinkWorkEnv)
    (hIn : 1 ≤ env.minInElements) (hAv : 0 ≤ env.writeAvailable) :
    (sinkWork st env).framesWritten =
        some (min (if env.writeAvailable = 0 then env.minFramesBlocking
          else env.writeAvailable) env.minInElements)
    ∧ ((sinkWork st env).state.readyTime < env.now →
      (sinkWork st env).action =
        SinkAction.consumed (min (if env.writeAvailable = 0
          then env.minFramesBlocking else env.writeAvailable)
          env.minInElements)) := by
  have h1 : ¬ env.minInElements = 0 := by omega
  have h2 : ¬ env.writeAvailable < 0 := by omega
  refine ⟨sinkWork_framesWritten st env h1 h2, ?_⟩
  intro hlt
  rw [sinkWork_state st env h1 h2] at hlt
  exact sinkWork_consume_of_lt st env h1 h2 hlt

/-- C7 witness: a zero write availability forces the MIN_FRAMES_BLOCKING
substitute, the clamp to 4 available input elements gives 4 frames, and with
the backoff window already passed exactly 4 frames are consumed. -/
theorem sink_frame_count_and_consume_witness :
    (sinkWork ⟨0, 0, false, true, false⟩
        ⟨4, 0, 1024, PaWriteError.paNoError, 5⟩).framesWritten = some 4
    ∧ (sinkWork ⟨0, 0, false, true, false⟩
        ⟨4, 0, 1024, PaWriteError.paNoError, 5⟩).action
      = SinkAction.consumed 4 := by
  have h := sink_frame_count_and_consume ⟨0, 0, false, true, false⟩
    ⟨4, 0, 1024, PaWriteError.paNoError, 5⟩ (by decide) (by decide)
  exact ⟨by simpa using h.1, by simpa using h.2 (by decide)⟩

/-- C9: every mode string outside the three accepted values makes
setReportMode and both variant setters throw the invalid-argument exception
and leave the whole block state exactly as it was; each accepted value
succeeds, setting the logger flag iff the mode is LOGGER and the stderr flag
iff the mode is STDERROR, identically in all three setters. -/
theorem set_report_mode_validation (st : BlockState) (mode : String) :
    (mode ≠ ("LOGGER") → mode ≠ ("STDERROR") → mode ≠ ("DISABLED") →
      setReportMode st mode = (st, some (.invalidArgumentException
          (("AudioBlock::setReportMode(") ++ mode ++ (")"))
          ("unknown report mode")))
      ∧ setReportUnderflow st mode = (st, some (.invalidArgumentException
          (("AudioSink::setReportUnderflow(") ++ mode ++ (")"))
          ("unknown underflow report mode")))
      ∧ setReportOverflow st mode = (st, some (.invalidArgumentException
          (("AudioSource::setReportOverflow(") ++ mode ++ (")"))
          ("unknown overflow report mode"))))
    ∧ (mode = ("LOGGER") ∨ mode = ("STDERROR") ∨ mode = ("DISABLED") →
      setReportMode st mode =
        ({ st with reportLogger := mode == ("LOGGER"),
                   reportStderror := mode == ("STDERROR") }, none)
      ∧ setReportUnderflow st mode = setReportMode st mode
      ∧ setReportOverflow st mode = setReportMode st mode) := by
  constructor
  · intro hL hS hD
    have hcond : ¬ (mode = ("LOGGER") ∨ mode = ("STDERROR")
        ∨ mode = ("DISABLED")) := by
      push_neg
      exact ⟨hL, hS, hD⟩
    rw [setReportMode, setReportUnderflow, setReportOverflow]
    rw [if_neg hcond, if_neg hcond, if_neg hcond]
    exact ⟨rfl, rfl, rfl⟩
  · intro hcond
    rw [setReportMode, setReportUnderflow, setReportOverflow]
    rw [if_pos hcond, if_pos hcond, if_pos hcond]
    exact ⟨rfl, rfl, rfl⟩

/-- C9 witness: the mode VERBOSE is rejected leaving the state unchanged,
and the mode LOGGER succeeds setting exactly the logger flag. -/
theorem set_report_mode_validation_witness :
    setReportMode ⟨1, 2, false, true, false⟩ ("VERBOSE") =
      (⟨1, 2, false, true, false⟩, some (.invalidArgumentException
        (("AudioBlock::setReportMode(") ++ ("VERBOSE") ++ (")"))
        ("unknown report mode")))
    ∧ setReportMode ⟨1, 2, false, true, false⟩ ("LOGGER") =
      (⟨1, 2, true, false, false⟩, none) := by
  have hbad := (set_report_mode_validation ⟨1, 2, false, true, false⟩
    ("VERBOSE")).1 (by decide) (by decide) (by decide)
  have hgood := (set_report_mode_validation ⟨1, 2, false, true, false⟩
    ("LOGGER")).2 (Or.inl rfl)
  exact ⟨hbad.1, by simpa using hgood.1⟩

/-- C10: setBackoffTime and the variant setters accept every long value with
no range validation, storing exactly the given number of milliseconds as the
backoff duration (negative values included), and a stored negative backoff
moves the ready time backwards on the next underflow. -/
theorem set_backoff_no_validation (st : BlockState) (b : Int)
    (e : SinkWorkEnv) :
    (setBackoffTime st b).backoffTime = msToClockTicks b
    ∧ (setUnderflowBackoff st b).backoffTime = msToClockTicks b
    ∧ (setOverflowBackoff st b).backoffTime = msToClockTicks b
    ∧ (b < 0 → e.writeErr = PaWriteError.paOutputUnderflowed →
        1 ≤ e.minInElements → 0 ≤ e.writeAvailable →
        (sinkWork (setBackoffTime st b) e).state.readyTime < st.readyTime) := by
  refine ⟨rfl, rfl, rfl, ?_⟩
  intro hb hu hIn hAv
  have h1 : ¬ e.minInElements = 0 := by omega
  have h2 : ¬ e.writeAvailable < 0 := by omega
  rw [sinkWork_state (setBackoffTime st b) e h1 h2]
  simp [sinkPostState, hu, setBackoffTime, msToClockTicks]
  omega

/-- C10 witness: a backoff of -5 milliseconds is stored without raising and
an underflow then moves the ready time from 100 to 100 - 5000000. -/
theorem set_backoff_no_validation_witness :
    (setBackoffTime ⟨100, 0, false, true, false⟩ (-5)).backoffTime = -5000000
    ∧ (sinkWork (setBackoffTime ⟨100, 0, false, true, false⟩ (-5))
        ⟨3, 2, 1024, PaWriteError.paOutputUnderflowed, 10⟩).state.readyTime
      < 100 := by
  have h := set_backoff_no_validation ⟨100, 0, false, true, false⟩ (-5)
    ⟨3, 2, 1024, PaWriteError.paOutputUnderflowed, 10⟩
  exact ⟨by simpa using h.1, h.2.2.2 (by decide) rfl (by decide) (by decide)⟩
/-- Lifecycle events of a source block as the host scheduler drives it:
activation (with the clock value it reads), work invocations (with their
per-invocation environment) and deactivation. -/
inductive SourceEv where
  | activateEv (now : Int)
  | workEv (env : SourceWorkEnv)
  | deactivateEv

/-- One lifecycle step of the source: the next block state and how many
rxRate label postings (0 or 1; a posting covers every output port) the event
performed. -/
def sourceStep (st : BlockState) : SourceEv → BlockState × Nat
  | .activateEv now => (activate st now, 0)
  | .workEv env =>
      let out := sourceWork st env
      (out.state, if out.labelsPosted then 1 else 0)
  | .deactivateEv => (deactivate st, 0)

/-- Total number of rxRate label postings over a list of lifecycle
events. -/
def labelsInRun (st : BlockState) : List SourceEv → Nat
  | [] => 0
  | e :: es => (sourceStep st e).2 + labelsInRun (sourceStep st e).1 es

/-- Whether a work invocation reaches the native read (and hence the label
posting step): output space available, a non-negative read availability and
a nonzero clamped frame count. -/
def reachesRead (env : SourceWorkEnv) : Bool :=
  !(env.minOutElements == 0) && !(decide (env.readAvailable < 0))
    && !(min env.readAvailable env.minOutElements == 0)

/-- Label postings are counted interval by interval: a run split in two
contributes the count of the first part plus the count of the second part
started from the state the first part ends in. -/
theorem labelsInRun_append (evs1 evs2 : List SourceEv) :
    ∀ st : BlockState,
      labelsInRun st (evs1 ++ evs2) = labelsInRun st evs1
        + labelsInRun (evs1.foldl (fun s e => (sourceStep s e).1) st) evs2 := by
  induction evs1 with
  | nil =>
      intro st
      simp [labelsInRun]
  | cons e rest ih =>
      intro st
      simp only [List.cons_append, labelsInRun, List.foldl_cons,
        List.append_eq]
      rw [ih (sourceStep st e).1]
      omega

/-- A work invocation that does not reach the read posts nothing and keeps
the state; one that reaches it posts exactly when the label flag was armed
and disarms it. -/
theorem sourceStep_work (st : BlockState) (env : SourceWorkEnv) :
    (reachesRead env = false →
      (sourceStep st (.workEv env)).1 = st ∧ (sourceStep st (.workEv env)).2 = 0)
    ∧ (reachesRead env = true →
      (sourceStep st (.workEv env)).1.sendLabel = false
      ∧ (sourceStep st (.workEv env)).2 = (if st.sendLabel then 1 else 0)) := by
  constructor
  · intro hf
    have h : env.minOutElements = 0 ∨ env.readAvailable < 0
        ∨ min env.readAvailable env.minOutElements = 0 := by
      by_contra hc
      push_neg at hc
      obtain ⟨ha, hb, hcc⟩ := hc
      simp [reachesRead, ha, hb, hcc] at hf
    have he := sourceWork_early st env h
    simp only [sourceStep]
    exact ⟨he.1, by simp [he.2]⟩
  · intro ht
    have h1 : ¬ env.minOutElements = 0 := by
      intro h
      simp [reachesRead, h] at ht
    have h2 : ¬ env.readAvailable < 0 := by
      intro h
      simp [reachesRead, h] at ht
    have h3 : ¬ min env.readAvailable env.minOutElements = 0 := by
      intro h
      simp [reachesRead, h] at ht
    simp only [sourceStep]
    constructor
    · rw [sourceWork_state st env h1 h2 h3]
      rfl
    · rw [sourceWork_labelsPosted st env h1 h2 h3]

/-- Over any run of work invocations started with the label flag disarmed,
no label is posted. -/
theorem labelsInRun_disarmed (works : List SourceWorkEnv) :
    ∀ st : BlockState, st.sendLabel = false →
      labelsInRun st (works.map SourceEv.workEv) = 0 := by
  induction works with
  | nil =>
      intro st _
      rfl
  | cons env rest ih =>
      intro st hflag
      have hstep := sourceStep_work st env
      by_cases hr : reachesRead env
      · have hs := hstep.2 hr
        have hcount : (sourceStep st (.workEv env)).2 = 0 := by
          rw [hs.2, hflag]
          rfl
        simp only [List.map_cons, labelsInRun, hcount,
          ih (sourceStep st (.workEv env)).1 hs.1]
      · have hs := hstep.1 (by simpa using hr)
        simp only [List.map_cons, labelsInRun, hs.1, hs.2, ih st hflag]

/-- Over any run of work invocations started with the label flag armed, the
total number of label postings is one when some invocation reaches the read
and zero otherwise. -/
theorem labelsInRun_armed (works : List SourceWorkEnv) :
    ∀ st : BlockState, st.sendLabel = true →
      labelsInRun st (works.map SourceEv.workEv) =
        (if works.any reachesRead then 1 else 0) := by
  induction works with
  | nil =>
      intro st _
      rfl
  | cons env rest ih =>
      intro st hflag
      have hstep := sourceStep_work st env
      by_cases hr : reachesRead env
      · have hs := hstep.2 hr
        have hcount : (sourceStep st (.workEv env)).2 = 1 := by
          rw [hs.2, hflag]
          rfl
        have hrest := labelsInRun_disarmed rest (sourceStep st (.workEv env)).1
          hs.1
        simp only [List.map_cons, labelsInRun, hcount, hrest, List.any_cons, hr,
          Bool.true_or]
        rfl
      · have hs := hstep.1 (by simpa using hr)
        simp only [List.map_cons, labelsInRun, hs.1, hs.2, ih st hflag,
          List.any_cons]
        simp [hr]

/-- C6 counterexample: an interval consisting of an activate() immediately
followed by deactivate(), with zero work invocations in between, posts zero
rxRate labels, not exactly one; the claim fails for intervals in which no
work invocation reaches the read. -/
theorem rate_label_zero_work_counterexample :
    labelsInRun ⟨0, 0, false, true, false⟩
      [SourceEv.activateEv 0, SourceEv.deactivateEv] ≠ 1 := by
  decide

/-- C6 amended: in every interval from an activate() call to the next
deactivate() call the source posts the rxRate label on its output ports at
most once, and exactly once iff at least one work() invocation in the
interval reaches the native read (nonzero output space, non-negative read
availability and a nonzero clamped frame count); with no such invocation it
posts zero labels. -/
theorem rate_label_at_most_once (st : BlockState) (t : Int)
    (works : List SourceWorkEnv) :
    labelsInRun st (SourceEv.activateEv t :: works.map SourceEv.workEv
        ++ [SourceEv.deactivateEv]) =
      (if works.any reachesRead then 1 else 0) := by
  have harm : (activate st t).sendLabel = true := rfl
  have h0 : labelsInRun st (SourceEv.activateEv t :: works.map SourceEv.workEv
      ++ [SourceEv.deactivateEv]) =
      labelsInRun (activate st t)
        (works.map SourceEv.workEv ++ [SourceEv.deactivateEv]) := by
    simp [labelsInRun, sourceStep]
  rw [h0, labelsInRun_append (works.map SourceEv.workEv) [SourceEv.deactivateEv]
    (activate st t), labelsInRun_armed works (activate st t) harm]
  simp [labelsInRun, sourceStep]
/-- Serialized structured documents (the JSON or YAML trees the enumeration
query builds), abstracted from the concrete serializer. -/
inductive Doc where
  | str (s : String)
  | int (n : Int)
  | rat (q : Rat)
  | arr (items : List Doc)
  | obj (fields : List (String × Doc))

/-- Host API name lookup: Pa_GetHostApiInfo(index)->name. -/
def paGetHostApiName (env : PaEnv) (i : Nat) : String :=
  List.getD env.hostApis i ("")

/-- The per-device record both enumerateAudioDevices variants build: device
name, host API name, max input channels, max output channels and default
sample rate. -/
def deviceInfoDoc (env : PaEnv) (info : PaDeviceInfo) : Doc :=
  .obj [(("Device Name"), .str info.name),
        (("Host API Name"), .str (paGetHostApiName env info.hostApi)),
        (("Max Input Channels"), .int info.maxInputChannels),
        (("Max Output Channels"), .int info.maxOutputChannels),
        (("Default Sample Rate"), .rat info.defaultSampleRate)]

/-- The devices array both variants build: one record per present device. -/
def devicesArrayDoc (env : PaEnv) : Doc :=
  .arr (env.devices.map (deviceInfoDoc env))

/-- enumerateAudioDevices of the YAML variant (AudioInfo.cpp lines 9-35):
builds the top object holding the devices array under the key PortAudio
Device and the version text under the key PortAudio Version, and serializes
the TOP object. -/
def enumerateAudioDevicesYaml (env : PaEnv) : Doc :=
  .obj [(("PortAudio Device"), devicesArrayDoc env),
        (("PortAudio Version"), .str env.versionText)]

/-- enumerateAudioDevices of the JSON variant (AudioInfo.cpp second half,
lines 51-75): builds the same top object (topObject with the devices array
and the version text) but then returns devicesArray.dump(), serializing ONLY
the devices array; the top object, and with it the version string, is
discarded. -/
def enumerateAudioDevicesJson (env : PaEnv) : Doc :=
  let _topObject : Doc :=
    .obj [(("PortAudio Device"), devicesArrayDoc env),
          (("PortAudio Version"), .str env.versionText)]
  devicesArrayDoc env

/-- Whether a document is an object with the given top-level key. -/
def docHasKey : Doc → String → Bool
  | .obj fields, k => fields.any (fun kv => kv.1 == k)
  | _, _ => false

/-- Whether a document is an array whose every element carries the five
per-device keys. -/
def allDevicesHaveFields : Doc → Bool
  | .arr items => items.all (fun d =>
      docHasKey d ("Device Name") && docHasKey d ("Host API Name")
        && docHasKey d ("Max Input Channels")
        && docHasKey d ("Max Output Channels")
        && docHasKey d ("Default Sample Rate"))
  | _ => false

/-- C8: on the sample device table the YAML variant returns a document that
carries every per-device record and the library version string, but the JSON
variant returns exactly the bare devices array (the serialization of
devicesArray, not of topObject), so its output carries the per-device
records yet lacks the PortAudio Version key entirely: the version string the
code stored into the discarded top object never reaches the returned
document. -/
theorem json_enumeration_missing_version :
    docHasKey (enumerateAudioDevicesYaml sampleEnv) ("PortAudio Version") = true
    ∧ docHasKey (enumerateAudioDevicesYaml sampleEnv) ("PortAudio Device") = true
    ∧ allDevicesHaveFields (devicesArrayDoc sampleEnv) = true
    ∧ enumerateAudioDevicesJson sampleEnv = devicesArrayDoc sampleEnv
    ∧ docHasKey (enumerateAudioDevicesJson sampleEnv) ("PortAudio Version")
      = false
    ∧ docHasKey (enumerateAudioDevicesJson sampleEnv) ("PortAudio Device")
      = false := by
  refine ⟨rfl, rfl, rfl, rfl, rfl, rfl⟩
